import Mathlib

/-!
Verification development for the provider-caddy reconciliation core:
a shallow embedding of the Caddy admin-API client
(internal/clients/caddy/client.go), the desired-to-remote translator and
reconciliation controller (internal/controller/proxyroute/proxyroute.go),
and the CRD parameter types (apis/config/v1alpha1/proxyroute_types.go),
together with theorems about route identity, creation, update, deletion
and observation behaviour.
-/

/-- Embedding of Go strings.Contains helper: does sub occur at the start of l? -/
def leadsWith : List Char → List Char → Bool
  | _, [] => true
  | [], _ :: _ => false
  | c :: cs, d :: ds => c == d && leadsWith cs ds

/-- Does sub occur anywhere inside l? -/
def containsSubAux : List Char → List Char → Bool
  | [], sub => sub.isEmpty
  | c :: cs, sub => leadsWith (c :: cs) sub || containsSubAux cs sub

/-- Embedding of Go strings.Contains(s, sub). -/
def goContains (s sub : String) : Bool :=
  containsSubAux s.data sub.data

namespace caddy

/-- MatchSet from client.go: a set of matchers. Go maps are embedded as
association lists. -/
structure MatchSet where
  Host : List String
  Path : List String
  Method : List String
  Header : List (String × List String)

/-- Upstream from client.go: a backend server. -/
structure Upstream where
  Dial : String
  MaxRequests : Int

/-- SelectionPolicy from client.go. -/
structure SelectionPolicy where
  Policy : String

/-- LoadBalancing from client.go. -/
structure LoadBalancing where
  SelectionPolicy : Option SelectionPolicy
  TryDuration : String
  TryInterval : String

/-- HeaderOps from client.go. -/
structure HeaderOps where
  Set : List (String × List String)
  Add : List (String × List String)
  Delete : List String

/-- Headers from client.go. -/
structure Headers where
  Request : Option HeaderOps
  Response : Option HeaderOps

/-- ActiveHealthCheck from client.go. -/
structure ActiveHealthCheck where
  Path : String
  Interval : String
  Timeout : String

/-- PassiveHealthCheck from client.go. -/
structure PassiveHealthCheck where
  MaxFails : Int
  UnhealthyLatency : String

/-- HealthChecks from client.go. -/
structure HealthChecks where
  Active : Option ActiveHealthCheck
  Passive : Option PassiveHealthCheck

/-- TLSConfig from client.go. -/
structure TLSConfig where
  ServerName : String
  InsecureSkipVerify : Bool

/-- Transport from client.go. -/
structure Transport where
  Protocol : String
  TLS : Option TLSConfig

/-- UpstreamStatus from client.go. -/
structure UpstreamStatus where
  Address : String
  Healthy : Bool
  NumRequests : Int

mutual
/-- Handler from client.go: a route handler. Mutually recursive with Route
because a handler can carry subroutes. The Go field named Handler (the
handler kind string) is embedded as the field HandlerKind, since Lean does
not allow a field sharing the name of its enclosing type. -/
inductive Handler : Type where
  | mk (HandlerKind : String) (Routes : List Route) (Upstreams : List Upstream)
      (LoadBalancing : Option LoadBalancing) (Headers : Option Headers)
      (HealthChecks : Option HealthChecks) (Transport : Option Transport) : Handler

/-- Route from client.go: a subroute. -/
inductive Route : Type where
  | mk (Handle : List Handler) : Route
end

/-- Projection: the handler kind string (the Go field named Handler). -/
def Handler.HandlerKind : Handler → String
  | .mk h _ _ _ _ _ _ => h

/-- Projection: subroutes. -/
def Handler.Routes : Handler → List Route
  | .mk _ r _ _ _ _ _ => r

/-- Projection: upstreams. -/
def Handler.Upstreams : Handler → List Upstream
  | .mk _ _ u _ _ _ _ => u

/-- Projection: load balancing block. -/
def Handler.LoadBalancing : Handler → Option LoadBalancing
  | .mk _ _ _ l _ _ _ => l

/-- Projection: headers block. -/
def Handler.Headers : Handler → Option Headers
  | .mk _ _ _ _ h _ _ => h

/-- Projection: health checks block. -/
def Handler.HealthChecks : Handler → Option HealthChecks
  | .mk _ _ _ _ _ h _ => h

/-- Projection: transport block. -/
def Handler.Transport : Handler → Option Transport
  | .mk _ _ _ _ _ _ t => t

/-- ProxyRoute from client.go: a Caddy reverse proxy route configuration. -/
structure ProxyRoute where
  Match : List MatchSet
  Handle : List Handler
  Terminal : Bool

/-- generateRouteID from client.go: generates an ID for a route from its
configuration, consulting only the first matcher set. -/
def generateRouteID (route : ProxyRoute) : String :=
  match route.Match with
  | [] => "default"
  | matchSet :: _ =>
    let parts : List String := []
    let parts := if matchSet.Host.length > 0
      then parts ++ ["host:" ++ String.intercalate "," matchSet.Host] else parts
    let parts := if matchSet.Path.length > 0
      then parts ++ ["path:" ++ String.intercalate "," matchSet.Path] else parts
    let parts := if matchSet.Method.length > 0
      then parts ++ ["method:" ++ String.intercalate "," matchSet.Method] else parts
    if parts.length = 0 then "default"
    else String.intercalate "|" parts

/-- The scan of DeleteProxyRoute in client.go: the index of the first route
in the array whose generated ID equals routeID (Go: index := -1; loop with
break; embedded as an Option). -/
def findRouteIndex : List ProxyRoute → String → Option Nat
  | [], _ => none
  | r :: rs, routeID =>
    if generateRouteID r == routeID then some 0
    else (findRouteIndex rs routeID).map (· + 1)

/-- Outcome of one HTTP exchange as the client code sees it: either the
transport layer fails (Go: httpClient.Do returns err), or a response
arrives with a status code, a raw body (read for error messages), and
what JSON-decoding the body would produce. The decoded field is consulted
only on the paths where the Go code decodes the body. -/
inductive HttpResult (α : Type) where
  | netErr (msg : String)
  | resp (status : Nat) (body : String) (decoded : Except String α)

/-- CreateProxyRoute from client.go. The POST exchange is abstracted by
the post argument. json.Marshal of a ProxyRoute value cannot fail, so the
marshal-error branch has no counterpart. On success the returned
identifier is generateRouteID of the posted route; serverName only forms
the request path. -/
def CreateProxyRoute (serverName : String) (route : ProxyRoute)
    (post : HttpResult Unit) : Except String String :=
  match post with
  | .netErr m => .error ("failed to create route: " ++ m)
  | .resp status body _ =>
    if status < 200 ∨ 300 ≤ status then
      .error ("caddy API returned status " ++ toString status ++ ": " ++ body)
    else
      .ok (generateRouteID route)

/-- DeleteProxyRoute from client.go. The initial GET of the route array is
abstracted by getRoutes, and the DELETE of index i by delAt i. Returns the
result together with the index the DELETE request was issued at (none when
the code returns before issuing a DELETE). -/
def DeleteProxyRoute (serverName routeID : String)
    (getRoutes : HttpResult (List ProxyRoute)) (delAt : Nat → HttpResult Unit) :
    Except String Unit × Option Nat :=
  match getRoutes with
  | .netErr m => (.error ("failed to get routes: " ++ m), none)
  | .resp status body decoded =>
    if status = 404 then
      (.ok (), none)
    else if status < 200 ∨ 300 ≤ status then
      (.error ("caddy API returned status " ++ toString status ++ ": " ++ body), none)
    else
      match decoded with
      | .error m => (.error ("failed to decode routes: " ++ m), none)
      | .ok routes =>
        match findRouteIndex routes routeID with
        | none => (.ok (), none)
        | some index =>
          match delAt index with
          | .netErr m => (.error ("failed to delete route: " ++ m), some index)
          | .resp s2 b2 _ =>
            if s2 < 200 ∨ 300 ≤ s2 then
              (.error ("caddy API returned status " ++ toString s2 ++ ": " ++ b2), some index)
            else
              (.ok (), some index)

/-- GetProxyRoute from client.go: same list-and-scan as delete, without
mutation. -/
def GetProxyRoute (serverName routeID : String)
    (getRoutes : HttpResult (List ProxyRoute)) : Except String ProxyRoute :=
  match getRoutes with
  | .netErr m => .error ("failed to get routes: " ++ m)
  | .resp status body decoded =>
    if status = 404 then
      .error "route not found"
    else if status < 200 ∨ 300 ≤ status then
      .error ("caddy API returned status " ++ toString status ++ ": " ++ body)
    else
      match decoded with
      | .error m => .error ("failed to decode routes: " ++ m)
      | .ok routes =>
        match routes.find? (fun r => generateRouteID r == routeID) with
        | some r => .ok r
        | none => .error "route not found"

/-- UpdateProxyRoute from client.go: delete of the old identifier followed
by create of the new route. -/
def UpdateProxyRoute (serverName routeID : String) (route : ProxyRoute)
    (getRoutes : HttpResult (List ProxyRoute)) (delAt : Nat → HttpResult Unit)
    (post : HttpResult Unit) : Except String Unit :=
  match (DeleteProxyRoute serverName routeID getRoutes delAt).1 with
  | .error e => .error ("failed to delete old route: " ++ e)
  | .ok _ =>
    match CreateProxyRoute serverName route post with
    | .error e => .error ("failed to create updated route: " ++ e)
    | .ok _ => .ok ()

/-- Modelled from the spec: the backend stores routes as an array
(spec section 6); a GET of the route array returns it with status 200. -/
def stateGet (st : List ProxyRoute) : HttpResult (List ProxyRoute) :=
  .resp 200 "" (.ok st)

/-- Modelled from the spec: a DELETE of routes/{index} removes the entry at
that array index and returns status 200. -/
def stateDelAt : Nat → HttpResult Unit :=
  fun _ => .resp 200 "" (.ok ())

/-- The POST exchange of the create step: succeeds with status 200 when
postOk, otherwise fails with status 500. -/
def statePost (postOk : Bool) : HttpResult Unit :=
  if postOk then .resp 200 "" (.ok ()) else .resp 500 "backend failure" (.ok ())

/-- DeleteProxyRoute run against a live backend array: the result of the
client call, and the backend array afterwards (the entry at the issued
index removed, per the spec wire table). -/
def runDelete (st : List ProxyRoute) (serverName routeID : String) :
    Except String Unit × List ProxyRoute :=
  let out := DeleteProxyRoute serverName routeID (stateGet st) stateDelAt
  (out.1, match out.2 with
          | none => st
          | some i => st.eraseIdx i)

/-- CreateProxyRoute run against a live backend array: on a successful POST
the backend appends the route (spec: server-side array append); on failure
the array is unchanged. -/
def runCreate (postOk : Bool) (st : List ProxyRoute) (serverName : String)
    (route : ProxyRoute) : Except String String × List ProxyRoute :=
  match CreateProxyRoute serverName route (statePost postOk) with
  | .error e => (.error e, st)
  | .ok id => (.ok id, st ++ [route])

/-- UpdateProxyRoute run against a live backend array: the delete phase runs
against the current array, then the create phase against what remains. -/
def runUpdate (st : List ProxyRoute) (postOk : Bool)
    (serverName routeID : String) (route : ProxyRoute) :
    Except String Unit × List ProxyRoute :=
  let dOut := runDelete st serverName routeID
  match dOut.1 with
  | .error e => (.error ("failed to delete old route: " ++ e), dOut.2)
  | .ok _ =>
    let cOut := runCreate postOk dOut.2 serverName route
    match cOut.1 with
    | .error e => (.error ("failed to create updated route: " ++ e), cOut.2)
    | .ok _ => (.ok (), cOut.2)

end caddy

namespace v1alpha1

/-- RouteMatch from proxyroute_types.go. Go maps are embedded as
association lists. -/
structure RouteMatch where
  Host : List String
  Path : List String
  Method : List String
  Headers : List (String × List String)

/-- Upstream from proxyroute_types.go; pointer fields become Options. -/
structure Upstream where
  Dial : String
  MaxRequests : Option Int

/-- LoadBalancing from proxyroute_types.go. -/
structure LoadBalancing where
  Policy : Option String
  TryDuration : Option String
  TryInterval : Option String

/-- HeaderManipulation from proxyroute_types.go. -/
structure HeaderManipulation where
  Set : List (String × List String)
  Add : List (String × List String)
  Delete : List String

/-- HeaderOps from proxyroute_types.go. -/
structure HeaderOps where
  Request : Option HeaderManipulation
  Response : Option HeaderManipulation

/-- ActiveHealthCheck from proxyroute_types.go. -/
structure ActiveHealthCheck where
  Path : Option String
  Interval : Option String
  Timeout : Option String

/-- PassiveHealthCheck from proxyroute_types.go. -/
structure PassiveHealthCheck where
  MaxFails : Option Int
  UnhealthyLatency : Option String

/-- HealthChecks from proxyroute_types.go. -/
structure HealthChecks where
  Active : Option ActiveHealthCheck
  Passive : Option PassiveHealthCheck

/-- UpstreamTLS from proxyroute_types.go. -/
structure UpstreamTLS where
  Enabled : Option Bool
  ServerName : Option String
  InsecureSkipVerify : Option Bool

/-- ProxyRouteParameters from proxyroute_types.go. -/
structure ProxyRouteParameters where
  CaddyEndpoint : String
  ServerName : Option String
  Match : Option RouteMatch
  Upstreams : List Upstream
  LoadBalancing : Option LoadBalancing
  Headers : Option HeaderOps
  HealthChecks : Option HealthChecks
  TLS : Option UpstreamTLS

/-- The ProxyRoute managed resource, reduced to the parts the controller
reads: the crossplane external-name annotation (the empty string when the
annotation is unset, as meta.GetExternalName reports it) and the
spec.forProvider parameters. -/
structure ProxyRouteCR where
  externalName : String
  forProvider : ProxyRouteParameters

end v1alpha1

namespace proxyroute

/-- convertToProxyRoute from proxyroute.go: converts the CRD spec to the
Caddy client wire shape. Go writes into zero-valued structs behind nil
checks; the embedding produces the same final values (absent pointers stay
none, unset strings stay "", unset ints stay 0, unset bools stay false). -/
def convertToProxyRoute (cr : v1alpha1.ProxyRouteCR) : caddy.ProxyRoute :=
  let p := cr.forProvider
  let matchSets : List caddy.MatchSet :=
    match p.Match with
    | none => []
    | some m => [{ Host := m.Host, Path := m.Path, Method := m.Method, Header := m.Headers }]
  let upstreams : List caddy.Upstream :=
    p.Upstreams.map (fun u => { Dial := u.Dial, MaxRequests := u.MaxRequests.getD 0 })
  let lb : Option caddy.LoadBalancing :=
    p.LoadBalancing.map (fun l =>
      { SelectionPolicy := l.Policy.map (fun pol => { Policy := pol }),
        TryDuration := l.TryDuration.getD "",
        TryInterval := l.TryInterval.getD "" })
  let hdrs : Option caddy.Headers :=
    p.Headers.map (fun h =>
      { Request := h.Request.map (fun r =>
          { Set := r.Set, Add := r.Add, Delete := r.Delete }),
        Response := h.Response.map (fun r =>
          { Set := r.Set, Add := r.Add, Delete := r.Delete }) })
  let hc : Option caddy.HealthChecks :=
    p.HealthChecks.map (fun h =>
      { Active := h.Active.map (fun a =>
          { Path := a.Path.getD "", Interval := a.Interval.getD "",
            Timeout := a.Timeout.getD "" }),
        Passive := h.Passive.map (fun pv =>
          { MaxFails := pv.MaxFails.getD 0,
            UnhealthyLatency := pv.UnhealthyLatency.getD "" }) })
  let tr : Option caddy.Transport :=
    match p.TLS with
    | some t =>
      match t.Enabled with
      | some true =>
        some { Protocol := "http",
               TLS := some { ServerName := t.ServerName.getD "",
                             InsecureSkipVerify := t.InsecureSkipVerify.getD false } }
      | _ => none
    | none => none
  let handler : caddy.Handler :=
    .mk "reverse_proxy" [] upstreams lb hdrs hc tr
  { Match := matchSets, Handle := [handler], Terminal := true }

/-- isUpToDate from proxyroute.go: always reports false (forced
re-synchronization every reconciliation cycle). -/
def isUpToDate (cr : v1alpha1.ProxyRouteCR) (route : caddy.ProxyRoute) : Bool :=
  false

/-- The two fields of managed.ExternalObservation the controller sets. -/
structure ExternalObservation where
  ResourceExists : Bool
  ResourceUpToDate : Bool

/-- What external.Observe produces: the observation returned to the managed
reconciler and whether the Available condition was set on the resource. -/
structure ObserveOut where
  obs : ExternalObservation
  availableSet : Bool

/-- external.Observe from proxyroute.go. The GET of the route array is
abstracted by getRoutes and the upstream-status GET by upstreams; the
upstream-status result only feeds status fields and logging, never the
returned observation, so the embedding takes it and ignores it. -/
def externalObserve (cr : v1alpha1.ProxyRouteCR)
    (getRoutes : caddy.HttpResult (List caddy.ProxyRoute))
    (upstreams : caddy.HttpResult (List caddy.UpstreamStatus)) :
    Except String ObserveOut :=
  let routeID := cr.externalName
  if routeID == "" then
    .ok { obs := { ResourceExists := false, ResourceUpToDate := false },
          availableSet := false }
  else
    let serverName := cr.forProvider.ServerName.getD "srv0"
    match caddy.GetProxyRoute serverName routeID getRoutes with
    | .error e =>
      if goContains e "not found" then
        .ok { obs := { ResourceExists := false, ResourceUpToDate := false },
              availableSet := false }
      else
        .error ("cannot get proxy route: " ++ e)
    | .ok route =>
      .ok { obs := { ResourceExists := true,
                     ResourceUpToDate := isUpToDate cr route },
            availableSet := true }

/-- external.Create from proxyroute.go: translate the desired state, POST
it, and on success persist the returned identifier as the external name
(meta.SetExternalName). The updated resource is returned. -/
def externalCreate (cr : v1alpha1.ProxyRouteCR) (post : caddy.HttpResult Unit) :
    Except String v1alpha1.ProxyRouteCR :=
  let serverName := cr.forProvider.ServerName.getD "srv0"
  let route := convertToProxyRoute cr
  match caddy.CreateProxyRoute serverName route post with
  | .error e => .error ("cannot create proxy route: " ++ e)
  | .ok routeID => .ok { cr with externalName := routeID }

end proxyroute

/-- The route identity function as the spec words it: if the route has no
match-condition sets the literal "default"; otherwise, examining only the
first match set, the "|"-join of the parts "host:" plus comma-joined
hosts, "path:" plus comma-joined paths, "method:" plus comma-joined
methods, each part included only when its field is non-empty and in that
fixed field order; and "default" again when all three fields are empty. -/
def routeIDFromSpec (route : caddy.ProxyRoute) : String :=
  match route.Match with
  | [] => "default"
  | m :: _ =>
    if m.Host = [] ∧ m.Path = [] ∧ m.Method = [] then "default"
    else
      String.intercalate "|"
        ((if m.Host ≠ [] then ["host:" ++ String.intercalate "," m.Host] else []) ++
         (if m.Path ≠ [] then ["path:" ++ String.intercalate "," m.Path] else []) ++
         (if m.Method ≠ [] then ["method:" ++ String.intercalate "," m.Method] else []))

/-- C1: the route identity function implements exactly the identifier
scheme the spec describes: "default" when there is no match set or when
the first match set has empty host, path and method fields, and otherwise
the "|"-join of the "host:", "path:", "method:" parts of the first match
set, each present only for a non-empty field, in that fixed order; header
match conditions never contribute. -/
theorem generateRouteID_eq_spec (route : caddy.ProxyRoute) :
    caddy.generateRouteID route = routeIDFromSpec route := by
  rcases route with ⟨ms, hs, t⟩
  cases ms with
  | nil => rfl
  | cons m rest =>
    rcases m with ⟨host, path, method, header⟩
    by_cases hH : host = [] <;> by_cases hP : path = [] <;> by_cases hMe : method = [] <;>
      simp [caddy.generateRouteID, routeIDFromSpec, hH, hP, hMe,
        List.length_pos, List.isEmpty_iff]

/-- C8: two routes whose first match sets agree on host, path and method
generate the same identifier, whatever their header matchers, handlers,
terminal flags or further match sets are. -/
theorem generateRouteID_agrees (r1 r2 : caddy.ProxyRoute) (m1 m2 : caddy.MatchSet)
    (ms1 ms2 : List caddy.MatchSet)
    (h1 : r1.Match = m1 :: ms1) (h2 : r2.Match = m2 :: ms2)
    (hH : m1.Host = m2.Host) (hP : m1.Path = m2.Path) (hM : m1.Method = m2.Method) :
    caddy.generateRouteID r1 = caddy.generateRouteID r2 := by
  simp only [caddy.generateRouteID, h1, h2, hH, hP, hM]

/-- A pair of concrete routes with equal first-set host, path and method
but different headers, handlers, terminal flags and extra match sets. -/
def routeSameA : caddy.ProxyRoute :=
  { Match := [{ Host := ["a.com"], Path := ["/x"], Method := [],
                Header := [("X-Key", ["1"])] }],
    Handle := [], Terminal := true }

/-- Companion route for the identity-agreement witness. -/
def routeSameB : caddy.ProxyRoute :=
  { Match := [{ Host := ["a.com"], Path := ["/x"], Method := [], Header := [] },
              { Host := ["z.org"], Path := [], Method := [], Header := [] }],
    Handle := [.mk "reverse_proxy" [] [{ Dial := "b:80", MaxRequests := 0 }] none none none none],
    Terminal := false }

/-- Witness for C8 at a concrete pair of routes. -/
theorem generateRouteID_agrees_witness :
    caddy.generateRouteID routeSameA = caddy.generateRouteID routeSameB :=
  generateRouteID_agrees routeSameA routeSameB _ _ _ _ rfl rfl rfl rfl rfl

/-- If the delete scan finds no index, no entry of the array generates the
sought identifier. -/
theorem findRouteIndex_none (routes : List caddy.ProxyRoute) (routeID : String)
    (h : caddy.findRouteIndex routes routeID = none) :
    ∀ r ∈ routes, caddy.generateRouteID r ≠ routeID := by
  induction routes with
  | nil => intro r hr; cases hr
  | cons a rs ih =>
    intro r hr
    by_cases ha : caddy.generateRouteID a == routeID
    · simp [caddy.findRouteIndex, ha] at h
    · simp only [caddy.findRouteIndex, ha, if_neg] at h
      rcases List.mem_cons.mp hr with rfl | hmem
      · simpa using ha
      · exact ih (by simpa using h) r hmem

/-- If no entry of the array generates the sought identifier, the delete
scan finds no index. -/
theorem findRouteIndex_eq_none (routes : List caddy.ProxyRoute) (routeID : String)
    (h : ∀ r ∈ routes, caddy.generateRouteID r ≠ routeID) :
    caddy.findRouteIndex routes routeID = none := by
  induction routes with
  | nil => rfl
  | cons a rs ih =>
    have ha : (caddy.generateRouteID a == routeID) = false := by
      simpa using h a (List.mem_cons_self a rs)
    simp [caddy.findRouteIndex, ha, ih (fun r hr => h r (List.mem_cons_of_mem a hr))]

/-- If the delete scan returns index i, the entry at i generates the sought
identifier and every earlier entry does not: i is the first match. -/
theorem findRouteIndex_some (routes : List caddy.ProxyRoute) (routeID : String) (i : Nat)
    (h : caddy.findRouteIndex routes routeID = some i) :
    (∃ r, routes[i]? = some r ∧ caddy.generateRouteID r = routeID)
    ∧ ∀ j, j < i → ∀ r, routes[j]? = some r → caddy.generateRouteID r ≠ routeID := by
  induction routes generalizing i with
  | nil => cases h
  | cons a rs ih =>
    by_cases ha : caddy.generateRouteID a == routeID
    · have h0 : i = 0 := by simp [caddy.findRouteIndex, ha] at h; omega
      subst h0
      exact ⟨⟨a, by simp, by simpa using ha⟩, fun j hj => absurd hj (Nat.not_lt_zero j)⟩
    · cases hrec : caddy.findRouteIndex rs routeID with
      | none => simp [caddy.findRouteIndex, ha, hrec] at h
      | some k =>
        have hik : i = k + 1 := by simp [caddy.findRouteIndex, ha, hrec] at h; omega
        subst hik
        rcases ih k hrec with ⟨⟨r, hr, hrid⟩, hmin⟩
        refine ⟨⟨r, by simpa using hr, hrid⟩, ?_⟩
        intro j hj r2 hr2
        cases j with
        | zero =>
          simp only [List.getElem?_cons_zero, Option.some.injEq] at hr2
          subst hr2
          simpa using ha
        | succ j2 =>
          exact hmin j2 (by omega) r2 (by simpa using hr2)

/-- C4: DeleteRoute succeeds with no error on a 404 from the route-array
GET, succeeds with no error (and issues no DELETE) when the fetched array
holds no entry with a matching identifier, and when the scan finds a match
it issues one DELETE keyed by the array index of the first matching
entry. -/
theorem deleteProxyRoute_behaviour (serverName routeID : String)
    (delAt : Nat → caddy.HttpResult Unit) (s : Nat) (body : String)
    (routes : List caddy.ProxyRoute) (h2xx : 200 ≤ s ∧ s < 300) :
    (∀ b dec, caddy.DeleteProxyRoute serverName routeID (.resp 404 b dec) delAt
        = (Except.ok (), none))
    ∧ ((∀ r ∈ routes, caddy.generateRouteID r ≠ routeID) →
        caddy.DeleteProxyRoute serverName routeID (.resp s body (.ok routes)) delAt
          = (Except.ok (), none))
    ∧ (∀ i, caddy.findRouteIndex routes routeID = some i →
        (caddy.DeleteProxyRoute serverName routeID (.resp s body (.ok routes)) delAt).2
            = some i
        ∧ (∃ r, routes[i]? = some r ∧ caddy.generateRouteID r = routeID)
        ∧ (∀ j, j < i → ∀ r, routes[j]? = some r →
            caddy.generateRouteID r ≠ routeID)) := by
  obtain ⟨hs1, hs2⟩ := h2xx
  have hne : ¬(s = 404) := by omega
  have hok : ¬(s < 200 ∨ 300 ≤ s) := by omega
  refine ⟨?_, ?_, ?_⟩
  · intro b dec
    simp [caddy.DeleteProxyRoute]
  · intro hnone
    simp [caddy.DeleteProxyRoute, hne, hok, findRouteIndex_eq_none routes routeID hnone]
  · intro i hfind
    refine ⟨?_, findRouteIndex_some routes routeID i hfind⟩
    simp only [caddy.DeleteProxyRoute, hne, hok, if_neg, if_false, hfind]
    cases delAt i with
    | netErr m => simp
    | resp s2 b2 dec2 => by_cases h2 : s2 < 200 ∨ 300 ≤ s2 <;> simp [h2]

/-- A concrete backend array for the delete witness: a non-matching route
followed by the matching one at index 1. -/
def deleteWitnessRoutes : List caddy.ProxyRoute :=
  [{ Match := [{ Host := ["z.org"], Path := [], Method := [], Header := [] }],
     Handle := [], Terminal := true },
   { Match := [{ Host := ["a.com"], Path := [], Method := [], Header := [] }],
     Handle := [], Terminal := true }]

/-- Witness for C4: against a concrete array, the DELETE is issued at
index 1, the first matching index. -/
theorem deleteProxyRoute_behaviour_witness :
    (caddy.DeleteProxyRoute "srv0" "host:a.com"
        (.resp 200 "" (.ok deleteWitnessRoutes))
        (fun _ => .resp 200 "" (.ok ()))).2 = some 1 :=
  ((deleteProxyRoute_behaviour "srv0" "host:a.com"
      (fun _ => .resp 200 "" (.ok ())) 200 "" deleteWitnessRoutes
      (by decide)).2.2 1 (by decide)).1

/-- Erasing an index keeps membership in the original list. -/
theorem mem_of_mem_eraseIdx_list {α : Type} {l : List α} {i : Nat} {a : α}
    (h : a ∈ l.eraseIdx i) : a ∈ l := by
  induction l generalizing i with
  | nil => simp [List.eraseIdx] at h
  | cons b bs ih =>
    cases i with
    | zero =>
      simp only [List.eraseIdx] at h
      exact List.mem_cons_of_mem b h
    | succ n =>
      simp only [List.eraseIdx] at h
      rcases List.mem_cons.mp h with rfl | hmem
      · exact List.mem_cons_self a bs
      · exact List.mem_cons_of_mem b (ih hmem)

/-- When at most one entry matches the identifier and the scan finds the
first match at index i, erasing index i leaves no matching entry. -/
theorem erase_first_match (routes : List caddy.ProxyRoute) (routeID : String) (i : Nat)
    (hcount : (routes.filter (fun r => caddy.generateRouteID r == routeID)).length ≤ 1)
    (hfind : caddy.findRouteIndex routes routeID = some i) :
    ∀ r ∈ routes.eraseIdx i, caddy.generateRouteID r ≠ routeID := by
  induction routes generalizing i with
  | nil => cases hfind
  | cons a rs ih =>
    by_cases ha : caddy.generateRouteID a == routeID
    · have h0 : i = 0 := by simp [caddy.findRouteIndex, ha] at hfind; omega
      subst h0
      have hfil : (rs.filter (fun r => caddy.generateRouteID r == routeID)) = [] := by
        simp only [List.filter_cons, ha, if_pos, List.length_cons] at hcount
        have : (rs.filter (fun r => caddy.generateRouteID r == routeID)).length = 0 := by
          omega
        exact List.eq_nil_of_length_eq_zero this
      intro r hr
      have hmem := List.mem_filter.not.mp (by rw [hfil]; exact List.not_mem_nil r)
      intro hid
      exact hmem ⟨by simpa [List.eraseIdx] using hr, by simpa using hid⟩
    · cases hrec : caddy.findRouteIndex rs routeID with
      | none => simp [caddy.findRouteIndex, ha, hrec] at hfind
      | some k =>
        have hik : i = k + 1 := by
          simp [caddy.findRouteIndex, ha, hrec] at hfind; omega
        subst hik
        have hcount2 : (rs.filter (fun r => caddy.generateRouteID r == routeID)).length ≤ 1 := by
          simpa [List.filter_cons, ha] using hcount
        intro r hr
        simp only [List.eraseIdx] at hr
        rcases List.mem_cons.mp hr with rfl | hmem
        · simpa using ha
        · exact ih k hcount2 hrec r hmem

/-- The shape of an update run whose create step fails: the wrapped create
error is returned and the backend array is the delete-phase result. -/
theorem runUpdate_fail_state (st : List caddy.ProxyRoute) (sn oldID : String)
    (newRoute : caddy.ProxyRoute) :
    (caddy.runUpdate st false sn oldID newRoute).1 =
      Except.error
        "failed to create updated route: caddy API returned status 500: backend failure"
    ∧ (caddy.runUpdate st false sn oldID newRoute).2 =
      (match caddy.findRouteIndex st oldID with
       | none => st
       | some i => st.eraseIdx i) := by
  cases hf : caddy.findRouteIndex st oldID <;>
    simp [caddy.runUpdate, caddy.runDelete, caddy.runCreate, caddy.DeleteProxyRoute,
      caddy.CreateProxyRoute, caddy.stateGet, caddy.stateDelAt, caddy.statePost, hf] <;>
    rfl

/-- C3: UpdateRoute is exactly delete of the old identifier followed by
create of the new route, and it is not atomic: in the backend-state model,
when the delete step succeeds and the create step fails, Update returns an
error and the resulting backend array holds no route with the old
identifier and none with the new identifier (given that the old identifier
matched at most one stored entry and the new identifier none). -/
theorem updateRoute_delete_then_create_not_atomic
    (st : List caddy.ProxyRoute) (sn oldID : String) (newRoute : caddy.ProxyRoute)
    (hcount : (st.filter (fun r => caddy.generateRouteID r == oldID)).length ≤ 1)
    (hnew : ∀ r ∈ st, caddy.generateRouteID r ≠ caddy.generateRouteID newRoute) :
    (∀ getR delAt post,
      caddy.UpdateProxyRoute sn oldID newRoute getR delAt post =
        (match (caddy.DeleteProxyRoute sn oldID getR delAt).1 with
         | Except.error e => Except.error ("failed to delete old route: " ++ e)
         | Except.ok _ =>
           match caddy.CreateProxyRoute sn newRoute post with
           | Except.error e => Except.error ("failed to create updated route: " ++ e)
           | Except.ok _ => Except.ok ()))
    ∧ (caddy.runDelete st sn oldID).1 = Except.ok ()
    ∧ (∃ e, (caddy.runUpdate st false sn oldID newRoute).1 = Except.error e)
    ∧ (∀ r ∈ (caddy.runUpdate st false sn oldID newRoute).2,
        caddy.generateRouteID r ≠ oldID)
    ∧ (∀ r ∈ (caddy.runUpdate st false sn oldID newRoute).2,
        caddy.generateRouteID r ≠ caddy.generateRouteID newRoute) := by
  obtain ⟨hres, hstate⟩ := runUpdate_fail_state st sn oldID newRoute
  refine ⟨fun getR delAt post => rfl, ?_, ⟨_, hres⟩, ?_, ?_⟩
  · cases hf : caddy.findRouteIndex st oldID <;>
      simp [caddy.runDelete, caddy.DeleteProxyRoute, caddy.stateGet, caddy.stateDelAt, hf]
  · intro r hr
    rw [hstate] at hr
    cases hf : caddy.findRouteIndex st oldID with
    | none =>
      rw [hf] at hr
      exact findRouteIndex_none st oldID hf r hr
    | some i =>
      rw [hf] at hr
      exact erase_first_match st oldID i hcount hf r hr
  · intro r hr
    rw [hstate] at hr
    cases hf : caddy.findRouteIndex st oldID with
    | none =>
      rw [hf] at hr
      exact hnew r hr
    | some i =>
      rw [hf] at hr
      exact hnew r (mem_of_mem_eraseIdx_list hr)

/-- The stored route for the update-non-atomicity witness, with identifier
"host:a.com". -/
def oldRouteW : caddy.ProxyRoute :=
  { Match := [{ Host := ["a.com"], Path := [], Method := [], Header := [] }],
    Handle := [], Terminal := true }

/-- The replacement route for the update-non-atomicity witness, with
identifier "host:c.com". -/
def newRouteW : caddy.ProxyRoute :=
  { Match := [{ Host := ["c.com"], Path := [], Method := [], Header := [] }],
    Handle := [], Terminal := true }

/-- Witness for C3 at a concrete one-route backend: the failed update
returns an error. -/
theorem updateRoute_not_atomic_witness :
    ∃ e, (caddy.runUpdate [oldRouteW] false "srv0" "host:a.com" newRouteW).1
      = Except.error e :=
  (updateRoute_delete_then_create_not_atomic [oldRouteW] "srv0" "host:a.com" newRouteW
    (by decide) (by decide)).2.2.1

/-- C2: whenever external.Create succeeds, the identifier it persists as
the external name is the route identity function applied to the translated
route, nothing else of the resource changes, and the identifier is
independent of the backend response (any two successful runs persist the
same resource). -/
theorem create_persists_identity (cr : v1alpha1.ProxyRouteCR)
    (post : caddy.HttpResult Unit) (cr2 : v1alpha1.ProxyRouteCR)
    (h : proxyroute.externalCreate cr post = Except.ok cr2) :
    cr2.externalName = caddy.generateRouteID (proxyroute.convertToProxyRoute cr)
    ∧ cr2.forProvider = cr.forProvider
    ∧ (∀ post2 cr3, proxyroute.externalCreate cr post2 = Except.ok cr3 → cr3 = cr2) := by
  have hshape : ∀ (p : caddy.HttpResult Unit) (c : v1alpha1.ProxyRouteCR),
      proxyroute.externalCreate cr p = Except.ok c →
      c = { cr with
            externalName := caddy.generateRouteID (proxyroute.convertToProxyRoute cr) } := by
    intro p c hc
    cases p with
    | netErr m => simp [proxyroute.externalCreate, caddy.CreateProxyRoute] at hc
    | resp status body dec =>
      by_cases hs : status < 200 ∨ 300 ≤ status
      · simp [proxyroute.externalCreate, caddy.CreateProxyRoute, hs] at hc
      · simp [proxyroute.externalCreate, caddy.CreateProxyRoute, hs] at hc
        exact hc.symm
  have h2 := hshape post cr2 h
  subst h2
  exact ⟨rfl, rfl, fun post2 cr3 h3 => hshape post2 cr3 h3⟩

/-- The desired resource used by the controller witnesses. -/
def crW : v1alpha1.ProxyRouteCR :=
  { externalName := "host:a.com",
    forProvider :=
      { CaddyEndpoint := "http://localhost:2019", ServerName := none,
        Match := some { Host := ["a.com"], Path := [], Method := [], Headers := [] },
        Upstreams := [{ Dial := "b:80", MaxRequests := none }],
        LoadBalancing := none, Headers := none, HealthChecks := none, TLS := none } }

/-- Witness for C2: a concrete successful create persists exactly the
identity of the translated route. -/
theorem create_persists_identity_witness :
    proxyroute.externalCreate crW (.resp 200 "" (Except.ok ()))
      = Except.ok { crW with externalName := "host:a.com" }
    ∧ ({ crW with externalName := "host:a.com" } : v1alpha1.ProxyRouteCR).externalName
      = caddy.generateRouteID (proxyroute.convertToProxyRoute crW) :=
  ⟨rfl, (create_persists_identity crW (.resp 200 "" (Except.ok ()))
    { crW with externalName := "host:a.com" } rfl).1⟩

/-- C6: Observe on a resource with no persisted external name reports
non-existence with no error and is independent of every backend response,
so it issues no backend call. -/
theorem observe_no_identifier (cr : v1alpha1.ProxyRouteCR)
    (h : cr.externalName = "")
    (g1 g2 : caddy.HttpResult (List caddy.ProxyRoute))
    (u1 u2 : caddy.HttpResult (List caddy.UpstreamStatus)) :
    proxyroute.externalObserve cr g1 u1 =
      Except.ok { obs := { ResourceExists := false, ResourceUpToDate := false },
                  availableSet := false }
    ∧ proxyroute.externalObserve cr g1 u1 = proxyroute.externalObserve cr g2 u2 := by
  constructor <;> simp [proxyroute.externalObserve, h]

/-- Witness for C6 at a concrete resource and two distinct backend
responses. -/
theorem observe_no_identifier_witness :
    proxyroute.externalObserve { crW with externalName := "" }
        (.netErr "connection refused") (.netErr "x") =
      Except.ok { obs := { ResourceExists := false, ResourceUpToDate := false },
                  availableSet := false }
    ∧ proxyroute.externalObserve { crW with externalName := "" }
        (.netErr "connection refused") (.netErr "x")
      = proxyroute.externalObserve { crW with externalName := "" }
        (.resp 200 "" (Except.ok [oldRouteW])) (.netErr "y") :=
  observe_no_identifier { crW with externalName := "" } rfl
    (.netErr "connection refused") (.resp 200 "" (Except.ok [oldRouteW]))
    (.netErr "x") (.netErr "y")

/-- C5: with a persisted identifier, a NotFound outcome from the client
(the literal "route not found" error it raises for a 404 or a failed scan)
makes Observe report non-existence with no error, while a Get error not
classified not-found makes Observe fail with that error wrapped under
"cannot get proxy route". -/
theorem observe_notfound_vs_error (cr : v1alpha1.ProxyRouteCR)
    (g : caddy.HttpResult (List caddy.ProxyRoute))
    (u : caddy.HttpResult (List caddy.UpstreamStatus))
    (hname : cr.externalName ≠ "") :
    (caddy.GetProxyRoute (cr.forProvider.ServerName.getD "srv0") cr.externalName g
        = Except.error "route not found" →
      proxyroute.externalObserve cr g u =
        Except.ok { obs := { ResourceExists := false, ResourceUpToDate := false },
                    availableSet := false })
    ∧ (∀ e, caddy.GetProxyRoute (cr.forProvider.ServerName.getD "srv0") cr.externalName g
        = Except.error e → goContains e "not found" = false →
      proxyroute.externalObserve cr g u = Except.error ("cannot get proxy route: " ++ e)) := by
  constructor
  · intro hget
    simp [proxyroute.externalObserve, hname, hget,
      show goContains "route not found" "not found" = true from rfl]
  · intro e hget hnc
    simp [proxyroute.externalObserve, hname, hget, hnc]

/-- Witness for C5: a 404 from the route-array GET produces the NotFound
outcome and Observe reports non-existence; a transport error propagates
wrapped. -/
theorem observe_notfound_vs_error_witness :
    proxyroute.externalObserve crW (.resp 404 "" (Except.ok [])) (.netErr "x") =
      Except.ok { obs := { ResourceExists := false, ResourceUpToDate := false },
                  availableSet := false }
    ∧ proxyroute.externalObserve crW (.netErr "connection refused") (.netErr "x") =
      Except.error "cannot get proxy route: failed to get routes: connection refused" :=
  ⟨(observe_notfound_vs_error crW (.resp 404 "" (Except.ok [])) (.netErr "x")
      (by decide)).1 rfl,
   (observe_notfound_vs_error crW (.netErr "connection refused") (.netErr "x")
      (by decide)).2 "failed to get routes: connection refused" rfl (by decide)⟩

/-- C9: whenever the persisted identifier is present and the client Get
succeeds, Observe reports the resource as existing but not up to date, for
every desired state and every fetched route, and sets the Available
condition. -/
theorem observe_always_stale (cr : v1alpha1.ProxyRouteCR)
    (g : caddy.HttpResult (List caddy.ProxyRoute))
    (u : caddy.HttpResult (List caddy.UpstreamStatus))
    (route : caddy.ProxyRoute)
    (hname : cr.externalName ≠ "")
    (hget : caddy.GetProxyRoute (cr.forProvider.ServerName.getD "srv0") cr.externalName g
        = Except.ok route) :
    proxyroute.externalObserve cr g u =
      Except.ok { obs := { ResourceExists := true, ResourceUpToDate := false },
                  availableSet := true } := by
  simp [proxyroute.externalObserve, hname, hget, proxyroute.isUpToDate]

/-- Witness for C9: a concrete backend holding the route makes Observe
report exists-but-stale. -/
theorem observe_always_stale_witness :
    proxyroute.externalObserve crW (.resp 200 "" (Except.ok [oldRouteW])) (.netErr "x") =
      Except.ok { obs := { ResourceExists := true, ResourceUpToDate := false },
                  availableSet := true } :=
  observe_always_stale crW (.resp 200 "" (Except.ok [oldRouteW])) (.netErr "x")
    oldRouteW (by decide) rfl

/-- C10: Observe classifies NotFound by substring-matching the error
message: every Get error whose message contains "not found" anywhere,
including a non-2xx backend error whose response body happens to contain
that text, is reported as non-existence with no error rather than as a
failed Observe. -/
theorem observe_substring_classification (cr : v1alpha1.ProxyRouteCR)
    (g : caddy.HttpResult (List caddy.ProxyRoute))
    (u : caddy.HttpResult (List caddy.UpstreamStatus)) (e : String)
    (hname : cr.externalName ≠ "")
    (hget : caddy.GetProxyRoute (cr.forProvider.ServerName.getD "srv0") cr.externalName g
        = Except.error e)
    (hsub : goContains e "not found" = true) :
    proxyroute.externalObserve cr g u =
      Except.ok { obs := { ResourceExists := false, ResourceUpToDate := false },
                  availableSet := false } := by
  simp [proxyroute.externalObserve, hname, hget, hsub]

/-- Witness for C10: a 500 backend error whose body contains the text
"not found" is swallowed and reported as non-existence. -/
theorem observe_substring_classification_witness :
    proxyroute.externalObserve crW
        (.resp 500 "upstream config not found here" (Except.ok [])) (.netErr "x") =
      Except.ok { obs := { ResourceExists := false, ResourceUpToDate := false },
                  availableSet := false } :=
  observe_substring_classification crW
    (.resp 500 "upstream config not found here" (Except.ok [])) (.netErr "x")
    "caddy API returned status 500: upstream config not found here"
    (by decide) rfl (by decide)

/-- A desired route whose TLS block is present but has Enabled set to
false. -/
def crTLSoff : v1alpha1.ProxyRouteCR :=
  { externalName := "",
    forProvider :=
      { CaddyEndpoint := "http://localhost:2019", ServerName := none,
        Match := none,
        Upstreams := [{ Dial := "b:80", MaxRequests := none }],
        LoadBalancing := none, Headers := none, HealthChecks := none,
        TLS := some { Enabled := some false, ServerName := none,
                      InsecureSkipVerify := none } } }

/-- Counterexample to C7 as stated: a non-nil TLS source field whose
Enabled flag is false produces an absent transport wire field, so the
presence law does not hold for the TLS transport field. -/
theorem convert_presence_counterexample :
    crTLSoff.forProvider.TLS.isSome = true
    ∧ (proxyroute.convertToProxyRoute crTLSoff).Handle.map caddy.Handler.Transport
      = [none] :=
  ⟨rfl, rfl⟩

/-- C7 (amended): the translation is total by construction and produces
exactly one handler; the match, load-balancing, headers and health-check
wire fields are present iff the corresponding source fields are non-nil;
the transport wire field is present iff the TLS source field is present
with Enabled set and true; and each upstream carries the source
max-requests value when set and 0 (the omitted-field encoding) otherwise. -/
theorem convert_presence_law (cr : v1alpha1.ProxyRouteCR) :
    ∃ h, (proxyroute.convertToProxyRoute cr).Handle = [h]
    ∧ ((proxyroute.convertToProxyRoute cr).Match ≠ [] ↔ cr.forProvider.Match.isSome)
    ∧ (h.LoadBalancing.isSome ↔ cr.forProvider.LoadBalancing.isSome)
    ∧ (h.Headers.isSome ↔ cr.forProvider.Headers.isSome)
    ∧ (h.HealthChecks.isSome ↔ cr.forProvider.HealthChecks.isSome)
    ∧ (h.Transport.isSome ↔ ∃ t, cr.forProvider.TLS = some t ∧ t.Enabled = some true)
    ∧ h.Upstreams.map caddy.Upstream.MaxRequests
        = cr.forProvider.Upstreams.map (fun u => u.MaxRequests.getD 0)
    ∧ h.Upstreams.map caddy.Upstream.Dial
        = cr.forProvider.Upstreams.map v1alpha1.Upstream.Dial
    ∧ h.HandlerKind = "reverse_proxy"
    ∧ (proxyroute.convertToProxyRoute cr).Terminal = true := by
  refine ⟨_, rfl, ?_, ?_, ?_, ?_, ?_, ?_, ?_, rfl, rfl⟩
  · cases hm : cr.forProvider.Match <;>
      simp [proxyroute.convertToProxyRoute, hm]
  · cases hl : cr.forProvider.LoadBalancing <;>
      simp [proxyroute.convertToProxyRoute, caddy.Handler.LoadBalancing, hl]
  · cases hh : cr.forProvider.Headers <;>
      simp [proxyroute.convertToProxyRoute, caddy.Handler.Headers, hh]
  · cases hc : cr.forProvider.HealthChecks <;>
      simp [proxyroute.convertToProxyRoute, caddy.Handler.HealthChecks, hc]
  · cases htls : cr.forProvider.TLS with
    | none => simp [proxyroute.convertToProxyRoute, caddy.Handler.Transport, htls]
    | some t =>
      cases hen : t.Enabled with
      | none => simp [proxyroute.convertToProxyRoute, caddy.Handler.Transport, htls, hen]
      | some b =>
        cases b <;>
          simp [proxyroute.convertToProxyRoute, caddy.Handler.Transport, htls, hen]
  · simp [proxyroute.convertToProxyRoute, caddy.Handler.Upstreams]
  · simp [proxyroute.convertToProxyRoute, caddy.Handler.Upstreams]
